import Mathlib

/-!
Verification of the joj.tiger worker-side grading pipeline.

The development shallowly embeds the three modules of the repository:

* `joj/tiger/task.py`      — the per-record orchestrator `TigerTask`
  (`run`, `submit`, `execute`, `clean`);
* `joj/tiger/horse_apis.py` — the retrying remote client `HorseClient`
  (`_retry`, `login`, `claim_record`);
* `joj/tiger/__main__.py`   — the process entry point `main`.

External effects (remote calls, storage fetches, sandboxed commands) are
resolved by an explicit environment `Env`; the orchestrator is a
deterministic function of that environment, threading an explicit state
`TState` that records the pending-submission handles, the `submit_res`
assignments, the `judged_at` stamp and a logical clock.
-/

/-- Overall status of a `SubmitResult`.  Modelled from the spec: the
`SubmitStatus` enum lives in `joj.tiger.schemas`, which is not among the
source files; `task.py` constructs only `accepted` and `system_error`. -/
inductive SubmitStatus where
  | accepted
  | system_error
deriving Repr, DecidableEq

/-- Per-case status.  Modelled from the spec: the `ExecuteStatus` enum lives
in `joj.tiger.schemas`; `task.py` constructs only `accepted`. -/
inductive ExecuteStatus where
  | accepted
deriving Repr, DecidableEq

/-- Result of one sandboxed command.  Modelled from the spec:
an ExecutionPhaseResult carries a status-as-data exit code, captured
output and duration; non-zero exit and timeout are data, never faults. -/
structure CompletedCommand where
  exit_code : Int
  output : String
  time_ms : Nat
deriving Repr, DecidableEq

instance : Inhabited CompletedCommand := ⟨⟨0, "", 0⟩⟩

/-- Result of one test case (`ExecuteResult` in `joj.tiger.schemas`):
a status and the completed command.  Modelled from the spec. -/
structure ExecuteResult where
  status : ExecuteStatus
  completed_command : CompletedCommand
deriving Repr, DecidableEq

/-- Aggregate result of an attempt (`SubmitResult` in `joj.tiger.schemas`).
Modelled from the spec: overall status, compile result, lint result, ordered
case results; the fields other than `submit_status` default to empty when
the orchestrator builds the `system_error` value. -/
structure SubmitResult where
  submit_status : SubmitStatus
  compile_result : Option CompletedCommand
  lint_result : Option CompletedCommand
  execute_results : List ExecuteResult
deriving Repr, DecidableEq

/-- The `SubmitResult(submit_status=SubmitStatus.system_error)` value built
at `task.py:186`; the remaining schema fields keep their empty defaults. -/
def sysErrorResult : SubmitResult :=
  { submit_status := SubmitStatus.system_error
    compile_result := none
    lint_result := none
    execute_results := [] }

/-- Diagnostic carried by a raised `WorkerRejectError` (`joj.tiger.errors`,
declared outside the given sources) and re-raised as a broker `Reject` at
`task.py:180`.  One constructor per distinct `error_msg` string in
`horse_apis.py`: `loginTransport` is "failed to request to login",
`loginApp ec` is "failed to login with error code {ec}", `claimTransport`
is "failed to request to claim record", and `claimApp ec` is
"failed to claim record with error code {ec}". -/
inductive RejectMsg where
  | loginTransport
  | loginApp (error_code : Nat)
  | claimTransport
  | claimApp (error_code : Nat)
deriving Repr, DecidableEq

/-- A retained pending-submission handle (`self.tasks` in `TigerTask`):
either a `submit_case` task created at `task.py:148-157` carrying the case
number fixed from the loop index at creation, or the final `submit_record`
task created at `task.py:190-199` carrying the aggregate result, the
`judged_at` stamp passed to it, and the instant of its creation. -/
inductive PendingSub where
  | caseSub (case_number : Nat) (exec_res : ExecuteResult)
  | recordSub (submit_res : SubmitResult) (judged_at : Nat) (created_at : Nat)
deriving Repr, DecidableEq

/-- Case numbers of the retained `submit_case` handles, in creation order. -/
def caseNumbers (l : List PendingSub) : List Nat :=
  l.filterMap fun t =>
    match t with
    | PendingSub.caseSub n _ => some n
    | PendingSub.recordSub _ _ _ => none

/-- The retained `submit_record` handles as
(payload, judged_at, created_at) triples, in creation order. -/
def recordsOf (l : List PendingSub) : List (SubmitResult × Nat × Nat) :=
  l.filterMap fun t =>
    match t with
    | PendingSub.caseSub _ _ => none
    | PendingSub.recordSub r j c => some (r, j, c)

/-- Payloads of the retained `submit_record` handles. -/
def recordResults (l : List PendingSub) : List SubmitResult :=
  l.filterMap fun t =>
    match t with
    | PendingSub.caseSub _ _ => none
    | PendingSub.recordSub r _ _ => some r

/-- Environment resolving every external effect of one attempt.
`loginResp n` / `claimResp n` give the outcome of the n-th transport
attempt (1-based) of `AuthApi.v1_login` / `JudgeApi.v1_claim_record_by_judger`:
`none` is a transport failure (any raised exception, retried by tenacity),
`some ec` is a delivered response with application `error_code` `ec`,
where `ec = 0` stands for `ErrorCode.SUCCESS`.  `fetchConfigOk` /
`fetchRecordOk` tell whether the two storage syncs of
`fetch_problem_config` / `fetch_record` complete or raise.  `compileCmd`,
`lintCmd` and `execCmd i` give the sandboxed command outcomes: `some c` is
a completed command (its exit code or timeout recorded as data in `c`),
`none` is a raised sandbox-infrastructure failure. -/
structure Env where
  loginResp : Nat → Option Nat
  claimResp : Nat → Option Nat
  fetchConfigOk : Bool
  fetchRecordOk : Bool
  compileCmd : Option CompletedCommand
  lintCmd : Option CompletedCommand
  execCmd : Nat → Option CompletedCommand

/-- State of one `TigerTask` attempt: a logical clock advanced by one at
each external operation, the retained pending-submission handles
(`self.tasks`), the optional `judged_at` attribute (unset until assigned at
`task.py:169`), the history of assignments to `self.submit_res`, the
transport-call counts and waits of the two retried calls, the handles
resolved by `asyncio.gather` in `clean`, the instant the fetch fan-in
completed, and whether the `execute` phase was entered. -/
structure TState where
  clock : Nat
  tasks : List PendingSub
  judged_at : Option Nat
  submitAssigns : List SubmitResult
  loginCalls : Nat
  loginWaits : List Nat
  claimCalls : Nat
  claimWaits : List Nat
  awaited : List PendingSub
  fetchDone : Option Nat
  executeEntered : Bool
deriving Repr, DecidableEq

/-- State at `TigerTask.__init__`: no handles, no assignments, `judged_at`
and `submit_res` unset. -/
def initState : TState :=
  { clock := 0
    tasks := []
    judged_at := none
    submitAssigns := []
    loginCalls := 0
    loginWaits := []
    claimCalls := 0
    claimWaits := []
    awaited := []
    fetchDone := none
    executeEntered := false }

/-- Wait inserted by tenacity `wait_exponential(multiplier)` after the n-th
failed attempt (1-based): `multiplier * exp_base ^ (attempt_number - 1)`
seconds with the default `exp_base = 2`. -/
def tenacityWait (multiplier n : Nat) : Nat := multiplier * 2 ^ (n - 1)

/-- Outcome of a tenacity-retried call: the delivered value if any attempt
returned (`none` means the retries were exhausted and `RetryError` was
raised), the number of transport attempts made, and the waits slept
between consecutive attempts. -/
structure RetryResult (α : Type) where
  value : Option α
  calls : Nat
  waits : List Nat
deriving Repr, DecidableEq

/-- `HorseClient._retry` (`horse_apis.py:36-42`): tenacity with
`stop=stop_after_attempt(3)` and `wait=wait_exponential(2)` — at most three
attempts of `f`, waiting `tenacityWait 2 n` after the n-th failure; a
response (whatever its application error code) stops the retrying; three
transport failures raise `RetryError` (`value = none`). -/
def retryThree {α : Type} (f : Nat → Option α) : RetryResult α :=
  match f 1 with
  | some a => ⟨some a, 1, []⟩
  | none =>
    match f 2 with
    | some a => ⟨some a, 2, [tenacityWait 2 1]⟩
    | none =>
      match f 3 with
      | some a => ⟨some a, 3, [tenacityWait 2 1, tenacityWait 2 2]⟩
      | none => ⟨none, 3, [tenacityWait 2 1, tenacityWait 2 2]⟩

/-- `HorseClient.login` as awaited by `TigerTask.login` (`horse_apis.py:44-65`):
retries the transport call; exhaustion raises
`WorkerRejectError("failed to request to login")`; a delivered response
with `error_code != SUCCESS` raises
`WorkerRejectError("failed to login with error code ...")`; otherwise the
bearer token is installed and the call returns. -/
def loginPhase (env : Env) (s : TState) : Option RejectMsg × TState :=
  let r := retryThree env.loginResp
  let s1 := { s with clock := s.clock + r.calls + r.waits.sum
                     loginCalls := r.calls
                     loginWaits := r.waits }
  match r.value with
  | none => (some RejectMsg.loginTransport, s1)
  | some ec =>
    if ec = 0 then (none, s1) else (some (RejectMsg.loginApp ec), s1)

/-- `HorseClient.claim_record` as awaited by `TigerTask.claim`
(`horse_apis.py:80-102`): same retry shape as `login`, with the messages
"failed to request to claim record" / "failed to claim record with error
code ...". -/
def claimPhase (env : Env) (s : TState) : Option RejectMsg × TState :=
  let r := retryThree env.claimResp
  let s1 := { s with clock := s.clock + r.calls + r.waits.sum
                     claimCalls := r.calls
                     claimWaits := r.waits }
  match r.value with
  | none => (some RejectMsg.claimTransport, s1)
  | some ec =>
    if ec = 0 then (none, s1) else (some (RejectMsg.claimApp ec), s1)

/-- The loop body of `TigerTask.execute` (`task.py:140-159`), iterated over
the remaining fuel starting at case index `i`: each iteration awaits the
sandboxed command for the case; a completed command is wrapped into an
`ExecuteResult` (status `accepted`), appended to the result list, and a
`submit_case` task carrying the loop index is created and retained in
`self.tasks`; a raised command aborts the loop with the handles created so
far still retained (`none` result = the exception propagates to `run`). -/
def execCases (env : Env) : Nat → Nat → TState → List ExecuteResult →
    Option (List ExecuteResult) × TState
  | _, 0, s, acc => (some acc.reverse, s)
  | i, fuel + 1, s, acc =>
    match env.execCmd i with
    | none => (none, { s with clock := s.clock + 1 })
    | some c =>
      let er : ExecuteResult := ⟨ExecuteStatus.accepted, c⟩
      execCases env (i + 1) fuel
        { s with clock := s.clock + 1
                 tasks := s.tasks ++ [PendingSub.caseSub i er] }
        (er :: acc)

/-- The body of `TigerTask.run` after a successful claim
(`task.py:168-186`): the two fetches run concurrently and the transition
fails if either raises; on success `judged_at` is stamped with
`datetime.now()` (the instant the fetch fan-in completed); then compile,
lint and the ten-case execute phase run in sequence, none of their recorded
results gating the next; any raised exception on this stretch is caught by
the final `except Exception` handler, which assigns the `system_error`
result to `self.submit_res` and returns normally; the success path assigns
the `accepted` aggregate exactly once. -/
def postClaim (env : Env) (s : TState) : TState :=
  if env.fetchConfigOk && env.fetchRecordOk then
    let sf := { s with clock := s.clock + 1
                       judged_at := some (s.clock + 1)
                       fetchDone := some (s.clock + 1) }
    match env.compileCmd with
    | none => { sf with submitAssigns := sf.submitAssigns ++ [sysErrorResult] }
    | some cc =>
      let sc := { sf with clock := sf.clock + 1 }
      match env.lintCmd with
      | none => { sc with submitAssigns := sc.submitAssigns ++ [sysErrorResult] }
      | some lc =>
        let sl := { sc with clock := sc.clock + 1, executeEntered := true }
        match execCases env 0 10 sl [] with
        | (none, se) =>
          { se with submitAssigns := se.submitAssigns ++ [sysErrorResult] }
        | (some ers, se) =>
          { se with submitAssigns := se.submitAssigns ++
              [{ submit_status := SubmitStatus.accepted
                 compile_result := some cc
                 lint_result := some lc
                 execute_results := ers }] }
  else
    { s with clock := s.clock + 1
             submitAssigns := s.submitAssigns ++ [sysErrorResult] }

/-- Outcome of `TigerTask.run` (`task.py:164-187`): it either returns
normally (`okNormal` — including the caught-exception path that assigned
`system_error`) or raises `Reject` to the broker after catching a
`WorkerRejectError` (`rejected`).  `RetryableError` is raised nowhere in
the given sources, so the `task.retry` branch is unreachable here. -/
inductive RunOutcome where
  | okNormal
  | rejected (m : RejectMsg)
deriving Repr, DecidableEq

/-- `TigerTask.run` (`task.py:164-187`): login, claim, then the post-claim
stretch; a `WorkerRejectError` from either retried call is re-raised as a
broker `Reject` carrying its message. -/
def runTiger (env : Env) : RunOutcome × TState :=
  match loginPhase env initState with
  | (some m, s) => (RunOutcome.rejected m, s)
  | (none, s) =>
    match claimPhase env s with
    | (some m, s1) => (RunOutcome.rejected m, s1)
    | (none, s1) => (RunOutcome.okNormal, postClaim env s1)

/-- Outcome of `TigerTask.submit`: the returned `SubmitResult`, a
propagated broker `Reject`, or the `AttributeError` raised when the
`submit_record` call reads `self.judged_at` (or `self.submit_res`) before
it was ever assigned. -/
inductive SubmitOutcome where
  | ok (r : SubmitResult)
  | rejected (m : RejectMsg)
  | attributeError
deriving Repr, DecidableEq

/-- `TigerTask.submit` (`task.py:188-200`): awaits `run`, then creates one
more task for `horse_client.submit_record` carrying `self.submit_res` and
`self.judged_at`, retains it in `self.tasks`, and returns
`self.submit_res`.  It performs no await on the retained handles.  An
unset `self.submit_res` or `self.judged_at` attribute raises
`AttributeError` while the call arguments are built. -/
def submitTiger (env : Env) : SubmitOutcome × TState :=
  match runTiger env with
  | (RunOutcome.rejected m, s) => (SubmitOutcome.rejected m, s)
  | (RunOutcome.okNormal, s) =>
    match s.submitAssigns.getLast? with
    | none => (SubmitOutcome.attributeError, s)
    | some r =>
      match s.judged_at with
      | none => (SubmitOutcome.attributeError, s)
      | some j =>
        (SubmitOutcome.ok r,
         { s with tasks := s.tasks ++ [PendingSub.recordSub r j s.clock]
                  clock := s.clock + 1 })

/-- `TigerTask.clean` (`task.py:161-162`): `asyncio.gather(*self.tasks)` —
resolves every retained pending-submission handle. -/
def cleanTiger (s : TState) : TState :=
  { s with awaited := s.awaited ++ s.tasks }

/-- Modelled from the spec: the broker entry point (the app module, not
among the given sources) drives one broker-visible attempt — it awaits
`TigerTask.submit` and then the pending-submission barrier
`TigerTask.clean` before returning the attempt to the broker; a raised
reject propagates to the broker unchanged. -/
def brokerAttempt (env : Env) : SubmitOutcome × TState :=
  match submitTiger env with
  | (SubmitOutcome.ok r, s) => (SubmitOutcome.ok r, cleanTiger s)
  | other => other

/-- The `ExecuteResult` produced for case `j` when its command completes. -/
def execResAt (env : Env) (j : Nat) : ExecuteResult :=
  ⟨ExecuteStatus.accepted, (env.execCmd j).get!⟩

/-- The ten `submit_case` handles retained by a completed execute phase. -/
def caseHandles (env : Env) : List PendingSub :=
  (List.range' 0 10).map fun j => PendingSub.caseSub j (execResAt env j)

/-- The ten case results of a completed execute phase, in case order. -/
def execResultsOf (env : Env) : List ExecuteResult :=
  (List.range' 0 10).map fun j => execResAt env j

/-- The `accepted` aggregate built at `task.py:173-178` on the success
path. -/
def acceptedResult (env : Env) (cc lc : CompletedCommand) : SubmitResult :=
  { submit_status := SubmitStatus.accepted
    compile_result := some cc
    lint_result := some lc
    execute_results := execResultsOf env }

/-- Number of `self.submit_res` assignments `run` performs for each way it
can finish: exactly one on every normal return, none on a raised
`Reject`. -/
def assignsOfOutcome : RunOutcome → Nat
  | RunOutcome.okNormal => 1
  | RunOutcome.rejected _ => 0

/-- Platform as reported by `platform.system()` in `__main__.py`. -/
inductive PlatformName where
  | windows
  | linux
  | darwin
deriving Repr, DecidableEq

/-- The settings consulted by `__main__.main`. -/
structure MainSettings where
  workers : Nat
  debug : Bool
deriving Repr, DecidableEq

/-- What `__main__.main` does: exit the process with a code, start the
broker-runtime app directly with the configured worker count, or start the
local auto-reload supervisor. -/
inductive MainAction where
  | exitWith (code : Int)
  | runApp (workers : Nat)
  | watchSupervisor (workers : Nat)
deriving Repr, DecidableEq

/-- `__main__.main` (`__main__.py:11-27`): on Windows with `workers != 1`
it prints a message and calls `exit(-1)`; otherwise, when `not debug or
workers != 1`, it delegates to the broker-runtime `app.main`; otherwise
(debug with one worker) it starts the watchgod auto-reload supervisor. -/
def mainEntry (plat : PlatformName) (s : MainSettings) : MainAction :=
  if plat = PlatformName.windows ∧ s.workers ≠ 1 then
    MainAction.exitWith (-1)
  else if ¬s.debug ∨ s.workers ≠ 1 then
    MainAction.runApp s.workers
  else
    MainAction.watchSupervisor s.workers

/-- A completed command standing in for the `echo` / `sleep` runs. -/
def cmdOk : CompletedCommand := ⟨0, "hello world", 1⟩

/-- Environment in which every external effect succeeds at once. -/
def envAllOk : Env :=
  ⟨fun _ => some 0, fun _ => some 0, true, true,
   some cmdOk, some cmdOk, fun _ => some cmdOk⟩

/-- Environment in which the problem-config fetch raises (an unclassified
exception before `judged_at` is assigned); everything else succeeds. -/
def envFetchFail : Env :=
  ⟨fun _ => some 0, fun _ => some 0, false, true,
   some cmdOk, some cmdOk, fun _ => some cmdOk⟩

/-- Environment in which the sandboxed command of case 3 raises an
infrastructure failure mid-execute; everything else succeeds. -/
def envExecFail3 : Env :=
  ⟨fun _ => some 0, fun _ => some 0, true, true,
   some cmdOk, some cmdOk, fun i => if i = 3 then none else some cmdOk⟩

/-- Environment in which every login transport attempt fails. -/
def envLoginDown : Env :=
  ⟨fun _ => none, fun _ => some 0, true, true,
   some cmdOk, some cmdOk, fun _ => some cmdOk⟩

/-- Environment in which login succeeds at once but every claim transport
attempt fails. -/
def envClaimDown : Env :=
  ⟨fun _ => some 0, fun _ => none, true, true,
   some cmdOk, some cmdOk, fun _ => some cmdOk⟩

/-- Environment in which the claim response arrives with application error
code 7; everything before it succeeds. -/
def envClaimApp : Env :=
  ⟨fun _ => some 0, fun _ => some 7, true, true,
   some cmdOk, some cmdOk, fun _ => some cmdOk⟩

/-- Environment in which the compile command completes with a non-zero
exit code (a failing compile, recorded as data); everything else
succeeds. -/
def envCompileBad : Env :=
  ⟨fun _ => some 0, fun _ => some 0, true, true,
   some ⟨1, "compile error", 5⟩, some cmdOk, fun _ => some cmdOk⟩

/-- Environment in which the lint command raises after both fetches
completed; everything else succeeds. -/
def envLintFail : Env :=
  ⟨fun _ => some 0, fun _ => some 0, true, true,
   some cmdOk, none, fun _ => some cmdOk⟩

/-- The task state right after a successful login and claim: the clock has
advanced by the transport calls and waits of the two retried remote calls,
no pending-submission handle exists yet, and `judged_at` / `submit_res`
are still unset. -/
def afterClaim (env : Env) : TState :=
  { clock := 0 + (retryThree env.loginResp).calls +
      (retryThree env.loginResp).waits.sum +
      (retryThree env.claimResp).calls +
      (retryThree env.claimResp).waits.sum
    tasks := []
    judged_at := none
    submitAssigns := []
    loginCalls := (retryThree env.loginResp).calls
    loginWaits := (retryThree env.loginResp).waits
    claimCalls := (retryThree env.claimResp).calls
    claimWaits := (retryThree env.claimResp).waits
    awaited := []
    fetchDone := none
    executeEntered := false }

/-- An unclassified exception raised on the post-fetch stretch of `run`:
the compile command raises, or the lint command raises, or the execute
phase raises at its first failing case `k`. -/
def postFetchFailure (env : Env) : Prop :=
  env.compileCmd = none ∨ env.lintCmd = none ∨
  ∃ k, k < 10 ∧ (∀ j, j < k → (env.execCmd j).isSome = true) ∧
    env.execCmd k = none

/-! ### Helper lemmas about the retried remote calls -/

lemma retryThree_first {α} (f : Nat → Option α) (a : α) (h : f 1 = some a) :
    retryThree f = ⟨some a, 1, []⟩ := by
  unfold retryThree
  rw [h]

lemma retryThree_exhausted {α} (f : Nat → Option α) (h : ∀ n, f n = none) :
    retryThree f = ⟨none, 3, [tenacityWait 2 1, tenacityWait 2 2]⟩ := by
  unfold retryThree
  rw [h 1, h 2, h 3]

lemma loginPhase_ok (env : Env) (s : TState)
    (h : (retryThree env.loginResp).value = some 0) :
    loginPhase env s =
      (none,
       { s with clock := s.clock + (retryThree env.loginResp).calls +
                  (retryThree env.loginResp).waits.sum
                loginCalls := (retryThree env.loginResp).calls
                loginWaits := (retryThree env.loginResp).waits }) := by
  simp only [loginPhase, h]
  simp

lemma claimPhase_ok (env : Env) (s : TState)
    (h : (retryThree env.claimResp).value = some 0) :
    claimPhase env s =
      (none,
       { s with clock := s.clock + (retryThree env.claimResp).calls +
                  (retryThree env.claimResp).waits.sum
                claimCalls := (retryThree env.claimResp).calls
                claimWaits := (retryThree env.claimResp).waits }) := by
  simp only [claimPhase, h]
  simp

lemma claimPhase_appFail (env : Env) (s : TState) (ec : Nat)
    (h : (retryThree env.claimResp).value = some ec) (hne : ec ≠ 0) :
    claimPhase env s =
      (some (RejectMsg.claimApp ec),
       { s with clock := s.clock + (retryThree env.claimResp).calls +
                  (retryThree env.claimResp).waits.sum
                claimCalls := (retryThree env.claimResp).calls
                claimWaits := (retryThree env.claimResp).waits }) := by
  simp only [claimPhase, h]
  simp [hne]

lemma loginPhase_exhausted (env : Env) (s : TState)
    (h : ∀ n, env.loginResp n = none) :
    loginPhase env s =
      (some RejectMsg.loginTransport,
       { s with clock := s.clock + 3 + (tenacityWait 2 1 + tenacityWait 2 2)
                loginCalls := 3
                loginWaits := [tenacityWait 2 1, tenacityWait 2 2] }) := by
  simp only [loginPhase, retryThree_exhausted env.loginResp h]
  simp [Nat.add_assoc]

lemma claimPhase_exhausted (env : Env) (s : TState)
    (h : ∀ n, env.claimResp n = none) :
    claimPhase env s =
      (some RejectMsg.claimTransport,
       { s with clock := s.clock + 3 + (tenacityWait 2 1 + tenacityWait 2 2)
                claimCalls := 3
                claimWaits := [tenacityWait 2 1, tenacityWait 2 2] }) := by
  simp only [claimPhase, retryThree_exhausted env.claimResp h]
  simp [Nat.add_assoc]

/-! ### Helper lemmas about the execute loop -/

lemma execCases_ok (env : Env) :
    ∀ (fuel i : Nat) (s : TState) (acc : List ExecuteResult),
      (∀ j, j < fuel → (env.execCmd (i + j)).isSome = true) →
      execCases env i fuel s acc =
        (some (acc.reverse ++ (List.range' i fuel).map fun j => execResAt env j),
         { s with clock := s.clock + fuel
                  tasks := s.tasks ++ (List.range' i fuel).map fun j =>
                    PendingSub.caseSub j (execResAt env j) }) := by
  intro fuel
  induction fuel with
  | zero =>
    intro i s acc h
    simp [execCases]
  | succ n ih =>
    intro i s acc h
    have h0 : (env.execCmd i).isSome = true := by
      have := h 0 (Nat.succ_pos n)
      simpa using this
    obtain ⟨c, hc⟩ := Option.isSome_iff_exists.mp h0
    have hval : execResAt env i = ⟨ExecuteStatus.accepted, c⟩ := by
      simp [execResAt, hc]
    have hshift : ∀ j, j < n → (env.execCmd (i + 1 + j)).isSome = true := by
      intro j hj
      have := h (j + 1) (Nat.succ_lt_succ hj)
      simpa [Nat.add_assoc, Nat.add_comm 1 j] using this
    simp only [execCases, hc]
    rw [ih (i + 1) _ _ hshift]
    simp [List.range'_succ, hval, Nat.add_assoc, Nat.add_comm, Nat.add_left_comm]

lemma caseNumbers_append (l1 l2 : List PendingSub) :
    caseNumbers (l1 ++ l2) = caseNumbers l1 ++ caseNumbers l2 := by
  simp [caseNumbers, List.filterMap_append]

lemma recordsOf_append (l1 l2 : List PendingSub) :
    recordsOf (l1 ++ l2) = recordsOf l1 ++ recordsOf l2 := by
  simp [recordsOf, List.filterMap_append]

lemma recordResults_append (l1 l2 : List PendingSub) :
    recordResults (l1 ++ l2) = recordResults l1 ++ recordResults l2 := by
  simp [recordResults, List.filterMap_append]

lemma caseNumbers_cons_case (n : Nat) (er : ExecuteResult)
    (l : List PendingSub) :
    caseNumbers (PendingSub.caseSub n er :: l) = n :: caseNumbers l := by
  simp [caseNumbers, List.filterMap_cons]

lemma caseNumbers_caseHandles_map (g : Nat → ExecuteResult) :
    ∀ (l : List Nat),
      caseNumbers (l.map fun j => PendingSub.caseSub j (g j)) = l := by
  intro l
  induction l with
  | nil => simp [caseNumbers]
  | cons a t ih => rw [List.map_cons, caseNumbers_cons_case, ih]

lemma recordsOf_cons_case (n : Nat) (er : ExecuteResult)
    (l : List PendingSub) :
    recordsOf (PendingSub.caseSub n er :: l) = recordsOf l := by
  simp [recordsOf, List.filterMap_cons]

lemma recordsOf_caseHandles_map (g : Nat → ExecuteResult) :
    ∀ (l : List Nat),
      recordsOf (l.map fun j => PendingSub.caseSub j (g j)) = [] := by
  intro l
  induction l with
  | nil => simp [recordsOf]
  | cons a t ih => rw [List.map_cons, recordsOf_cons_case, ih]

lemma recordResults_cons_case (n : Nat) (er : ExecuteResult)
    (l : List PendingSub) :
    recordResults (PendingSub.caseSub n er :: l) = recordResults l := by
  simp [recordResults, List.filterMap_cons]

lemma recordResults_single (r : SubmitResult) (j c : Nat) :
    recordResults [PendingSub.recordSub r j c] = [r] := by
  simp [recordResults, List.filterMap_cons]

lemma recordsOf_single (r : SubmitResult) (j c : Nat) :
    recordsOf [PendingSub.recordSub r j c] = [(r, j, c)] := by
  simp [recordsOf, List.filterMap_cons]

lemma recordResults_caseHandles_map (g : Nat → ExecuteResult) :
    ∀ (l : List Nat),
      recordResults (l.map fun j => PendingSub.caseSub j (g j)) = [] := by
  intro l
  induction l with
  | nil => simp [recordResults]
  | cons a t ih => rw [List.map_cons, recordResults_cons_case, ih]

lemma execCases_fail (env : Env) :
    ∀ (fuel i : Nat) (s : TState) (acc : List ExecuteResult) (k : Nat),
      k < fuel →
      (∀ j, j < k → (env.execCmd (i + j)).isSome = true) →
      env.execCmd (i + k) = none →
      execCases env i fuel s acc =
        (none,
         { s with clock := s.clock + k + 1
                  tasks := s.tasks ++ (List.range' i k).map fun j =>
                    PendingSub.caseSub j (execResAt env j) }) := by
  intro fuel
  induction fuel with
  | zero =>
    intro i s acc k hk
    exact absurd hk (Nat.not_lt_zero k)
  | succ n ih =>
    intro i s acc k hk hsome hnone
    match k with
    | 0 =>
      have hi : env.execCmd i = none := by simpa using hnone
      simp only [execCases, hi]
      simp
    | k' + 1 =>
      have h0 : (env.execCmd i).isSome = true := by
        have := hsome 0 (Nat.succ_pos k')
        simpa using this
      obtain ⟨c, hc⟩ := Option.isSome_iff_exists.mp h0
      have hval : execResAt env i = ⟨ExecuteStatus.accepted, c⟩ := by
        simp [execResAt, hc]
      have hshift : ∀ j, j < k' → (env.execCmd (i + 1 + j)).isSome = true := by
        intro j hj
        have := hsome (j + 1) (Nat.succ_lt_succ hj)
        simpa [Nat.add_assoc, Nat.add_comm 1 j] using this
      have hnone1 : env.execCmd (i + 1 + k') = none := by
        have : i + (k' + 1) = i + 1 + k' := by omega
        rw [← this]
        exact hnone
      simp only [execCases, hc]
      rw [ih (i + 1) _ _ k' (Nat.succ_lt_succ_iff.mp hk) hshift hnone1]
      simp [List.range'_succ, hval, Nat.add_assoc, Nat.add_comm, Nat.add_left_comm]

lemma execCases_state (env : Env) :
    ∀ (fuel i : Nat) (s : TState) (acc : List ExecuteResult),
      ((execCases env i fuel s acc).2.judged_at = s.judged_at) ∧
      ((execCases env i fuel s acc).2.submitAssigns = s.submitAssigns) ∧
      ((execCases env i fuel s acc).2.awaited = s.awaited) ∧
      ((execCases env i fuel s acc).2.fetchDone = s.fetchDone) ∧
      ((execCases env i fuel s acc).2.executeEntered = s.executeEntered) ∧
      (recordsOf (execCases env i fuel s acc).2.tasks = recordsOf s.tasks) ∧
      (recordResults (execCases env i fuel s acc).2.tasks =
        recordResults s.tasks) := by
  intro fuel
  induction fuel with
  | zero =>
    intro i s acc
    simp [execCases]
  | succ n ih =>
    intro i s acc
    cases hc : env.execCmd i with
    | none => simp [execCases, hc]
    | some c =>
      simp only [execCases, hc]
      obtain ⟨h1, h2, h3, h4, h5, h6, h7⟩ :=
        ih (i + 1)
          { s with clock := s.clock + 1
                   tasks := s.tasks ++
                     [PendingSub.caseSub i ⟨ExecuteStatus.accepted, c⟩] }
          (⟨ExecuteStatus.accepted, c⟩ :: acc)
      refine ⟨?_, ?_, ?_, ?_, ?_, ?_, ?_⟩
      · simpa using h1
      · simpa using h2
      · simpa using h3
      · simpa using h4
      · simpa using h5
      · rw [h6, recordsOf_append]
        simp [recordsOf]
      · rw [h7, recordResults_append]
        simp [recordResults]

/-! ### Characterizations of the post-claim stretch of `run` -/

lemma postClaim_allOk (env : Env) (s : TState) (cc lc : CompletedCommand)
    (hcf : env.fetchConfigOk = true) (hcr : env.fetchRecordOk = true)
    (hc : env.compileCmd = some cc) (hl : env.lintCmd = some lc)
    (he : ∀ j, j < 10 → (env.execCmd j).isSome = true) :
    postClaim env s =
      { s with clock := s.clock + 13
               judged_at := some (s.clock + 1)
               fetchDone := some (s.clock + 1)
               executeEntered := true
               tasks := s.tasks ++ caseHandles env
               submitAssigns := s.submitAssigns ++
                 [acceptedResult env cc lc] } := by
  have he0 : ∀ j, j < 10 → (env.execCmd (0 + j)).isSome = true := by
    intro j hj
    simpa using he j hj
  simp only [postClaim, hcf, hcr, hc, hl]
  rw [execCases_ok env 10 0 _ [] he0]
  simp [caseHandles, acceptedResult, execResultsOf, Nat.add_assoc]

lemma postClaim_fetchFail (env : Env) (s : TState)
    (h : env.fetchConfigOk = false ∨ env.fetchRecordOk = false) :
    postClaim env s =
      { s with clock := s.clock + 1
               submitAssigns := s.submitAssigns ++ [sysErrorResult] } := by
  have hb : (env.fetchConfigOk && env.fetchRecordOk) = false := by
    rcases h with h | h <;> simp [h]
  simp only [postClaim, hb]
  simp

lemma postClaim_compileFail (env : Env) (s : TState)
    (hcf : env.fetchConfigOk = true) (hcr : env.fetchRecordOk = true)
    (hc : env.compileCmd = none) :
    postClaim env s =
      { s with clock := s.clock + 1
               judged_at := some (s.clock + 1)
               fetchDone := some (s.clock + 1)
               submitAssigns := s.submitAssigns ++ [sysErrorResult] } := by
  simp only [postClaim, hcf, hcr, hc]
  simp

lemma postClaim_lintFail (env : Env) (s : TState) (cc : CompletedCommand)
    (hcf : env.fetchConfigOk = true) (hcr : env.fetchRecordOk = true)
    (hc : env.compileCmd = some cc) (hl : env.lintCmd = none) :
    postClaim env s =
      { s with clock := s.clock + 2
               judged_at := some (s.clock + 1)
               fetchDone := some (s.clock + 1)
               submitAssigns := s.submitAssigns ++ [sysErrorResult] } := by
  simp only [postClaim, hcf, hcr, hc, hl]
  simp [Nat.add_assoc]

lemma postClaim_execFail (env : Env) (s : TState) (cc lc : CompletedCommand)
    (k : Nat)
    (hcf : env.fetchConfigOk = true) (hcr : env.fetchRecordOk = true)
    (hc : env.compileCmd = some cc) (hl : env.lintCmd = some lc)
    (hk : k < 10) (hsome : ∀ j, j < k → (env.execCmd j).isSome = true)
    (hnone : env.execCmd k = none) :
    postClaim env s =
      { s with clock := s.clock + 4 + k
               judged_at := some (s.clock + 1)
               fetchDone := some (s.clock + 1)
               executeEntered := true
               tasks := s.tasks ++ (List.range' 0 k).map fun j =>
                 PendingSub.caseSub j (execResAt env j)
               submitAssigns := s.submitAssigns ++ [sysErrorResult] } := by
  have hsome0 : ∀ j, j < k → (env.execCmd (0 + j)).isSome = true := by
    intro j hj
    simpa using hsome j hj
  have hnone0 : env.execCmd (0 + k) = none := by
    simpa using hnone
  simp only [postClaim, hcf, hcr, hc, hl]
  rw [execCases_fail env 10 0 _ [] k hk hsome0 hnone0]
  simp [Nat.add_assoc]
  omega

lemma loginPhase_snd (env : Env) (s : TState) :
    (loginPhase env s).2 =
      { s with clock := s.clock + (retryThree env.loginResp).calls +
                 (retryThree env.loginResp).waits.sum
               loginCalls := (retryThree env.loginResp).calls
               loginWaits := (retryThree env.loginResp).waits } := by
  simp only [loginPhase]
  cases hv : (retryThree env.loginResp).value with
  | none => rfl
  | some ec =>
    by_cases hec : ec = 0 <;> simp [hec]

lemma claimPhase_snd (env : Env) (s : TState) :
    (claimPhase env s).2 =
      { s with clock := s.clock + (retryThree env.claimResp).calls +
                 (retryThree env.claimResp).waits.sum
               claimCalls := (retryThree env.claimResp).calls
               claimWaits := (retryThree env.claimResp).waits } := by
  simp only [claimPhase]
  cases hv : (retryThree env.claimResp).value with
  | none => rfl
  | some ec =>
    by_cases hec : ec = 0 <;> simp [hec]

lemma execCases_snd_fields (env : Env) (fuel i : Nat) (s se : TState)
    (res : Option (List ExecuteResult)) (acc : List ExecuteResult)
    (heq : execCases env i fuel s acc = (res, se)) :
    se.judged_at = s.judged_at ∧ se.submitAssigns = s.submitAssigns ∧
    se.awaited = s.awaited ∧ se.fetchDone = s.fetchDone ∧
    se.executeEntered = s.executeEntered ∧
    recordsOf se.tasks = recordsOf s.tasks ∧
    recordResults se.tasks = recordResults s.tasks := by
  have h := execCases_state env fuel i s acc
  rw [heq] at h
  exact h

lemma postClaim_assigns_len (env : Env) (s : TState) :
    (postClaim env s).submitAssigns.length = s.submitAssigns.length + 1 := by
  simp only [postClaim]
  split
  · split
    · simp
    · split
      · simp
      · split
        · next se heq =>
          obtain ⟨-, ha, -, -, -, -, -⟩ :=
            execCases_snd_fields env 10 0 _ se _ [] heq
          simp [ha]
        · next ers se heq =>
          obtain ⟨-, ha, -, -, -, -, -⟩ :=
            execCases_snd_fields env 10 0 _ se _ [] heq
          simp [ha]
  · simp

lemma postClaim_judged (env : Env) (s : TState)
    (hcf : env.fetchConfigOk = true) (hcr : env.fetchRecordOk = true) :
    (postClaim env s).judged_at = some (s.clock + 1) := by
  simp only [postClaim, hcf, hcr]
  split
  · split
    · simp
    · split
      · simp
      · split
        · next se heq =>
          obtain ⟨hj, -, -, -, -, -, -⟩ :=
            execCases_snd_fields env 10 0 _ se _ [] heq
          simpa using hj
        · next ers se heq =>
          obtain ⟨hj, -, -, -, -, -, -⟩ :=
            execCases_snd_fields env 10 0 _ se _ [] heq
          simpa using hj
  · next h => simp at h

lemma postClaim_records (env : Env) (s : TState) :
    recordsOf (postClaim env s).tasks = recordsOf s.tasks := by
  simp only [postClaim]
  split
  · split
    · simp
    · split
      · simp
      · split
        · next se heq =>
          obtain ⟨-, -, -, -, -, hrec, -⟩ :=
            execCases_snd_fields env 10 0 _ se _ [] heq
          simpa using hrec
        · next ers se heq =>
          obtain ⟨-, -, -, -, -, hrec, -⟩ :=
            execCases_snd_fields env 10 0 _ se _ [] heq
          simpa using hrec
  · simp

lemma postClaim_awaited (env : Env) (s : TState) :
    (postClaim env s).awaited = s.awaited := by
  simp only [postClaim]
  split
  · split
    · simp
    · split
      · simp
      · split
        · next se heq =>
          obtain ⟨-, -, hw, -, -, -, -⟩ :=
            execCases_snd_fields env 10 0 _ se _ [] heq
          simpa using hw
        · next ers se heq =>
          obtain ⟨-, -, hw, -, -, -, -⟩ :=
            execCases_snd_fields env 10 0 _ se _ [] heq
          simpa using hw
  · simp

/-! ### Characterizations of `run` and `submit` -/

lemma runTiger_ok (env : Env)
    (hl : (retryThree env.loginResp).value = some 0)
    (hc : (retryThree env.claimResp).value = some 0) :
    runTiger env = (RunOutcome.okNormal, postClaim env (afterClaim env)) := by
  simp only [runTiger, loginPhase_ok env initState hl]
  rw [claimPhase_ok env _ hc]
  rfl

lemma submitTiger_allOk (env : Env) (cc lc : CompletedCommand)
    (hl : (retryThree env.loginResp).value = some 0)
    (hc : (retryThree env.claimResp).value = some 0)
    (hcf : env.fetchConfigOk = true) (hcr : env.fetchRecordOk = true)
    (hcmp : env.compileCmd = some cc) (hlint : env.lintCmd = some lc)
    (he : ∀ j, j < 10 → (env.execCmd j).isSome = true) :
    submitTiger env =
      (SubmitOutcome.ok (acceptedResult env cc lc),
       { afterClaim env with
           clock := (afterClaim env).clock + 14
           judged_at := some ((afterClaim env).clock + 1)
           fetchDone := some ((afterClaim env).clock + 1)
           executeEntered := true
           tasks := caseHandles env ++
             [PendingSub.recordSub (acceptedResult env cc lc)
               ((afterClaim env).clock + 1) ((afterClaim env).clock + 13)]
           submitAssigns := [acceptedResult env cc lc] }) := by
  have h1 := runTiger_ok env hl hc
  rw [postClaim_allOk env (afterClaim env) cc lc hcf hcr hcmp hlint he] at h1
  simp only [submitTiger, h1]
  simp [Nat.add_assoc, afterClaim]

lemma runTiger_postFetchErr (env : Env)
    (hl : (retryThree env.loginResp).value = some 0)
    (hc : (retryThree env.claimResp).value = some 0)
    (hcf : env.fetchConfigOk = true) (hcr : env.fetchRecordOk = true)
    (hpf : postFetchFailure env) :
    (runTiger env).1 = RunOutcome.okNormal ∧
    (runTiger env).2.submitAssigns = [sysErrorResult] ∧
    (runTiger env).2.judged_at = some ((afterClaim env).clock + 1) ∧
    recordResults (runTiger env).2.tasks = [] ∧
    (runTiger env).2.awaited = [] := by
  have h1 := runTiger_ok env hl hc
  rw [h1]
  rcases hpf with hcmp | hlint | ⟨k, hk, hs, hn⟩
  · rw [postClaim_compileFail env _ hcf hcr hcmp]
    simp [recordResults, afterClaim]
  · cases hcmp : env.compileCmd with
    | none =>
      rw [postClaim_compileFail env _ hcf hcr hcmp]
      simp [recordResults, afterClaim]
    | some cc =>
      rw [postClaim_lintFail env _ cc hcf hcr hcmp hlint]
      simp [recordResults, afterClaim]
  · cases hcmp : env.compileCmd with
    | none =>
      rw [postClaim_compileFail env _ hcf hcr hcmp]
      simp [recordResults, afterClaim]
    | some cc =>
      cases hlint : env.lintCmd with
      | none =>
        rw [postClaim_lintFail env _ cc hcf hcr hcmp hlint]
        simp [recordResults, afterClaim]
      | some lc =>
        rw [postClaim_execFail env _ cc lc k hcf hcr hcmp hlint hk hs hn]
        simp [afterClaim, recordResults_append,
          recordResults_caseHandles_map, recordResults]

lemma submitTiger_sysError (env : Env)
    (hl : (retryThree env.loginResp).value = some 0)
    (hc : (retryThree env.claimResp).value = some 0)
    (hcf : env.fetchConfigOk = true) (hcr : env.fetchRecordOk = true)
    (hpf : postFetchFailure env) :
    ∃ s0 : TState,
      submitTiger env =
        (SubmitOutcome.ok sysErrorResult,
         { s0 with
             tasks := s0.tasks ++
               [PendingSub.recordSub sysErrorResult
                 ((afterClaim env).clock + 1) s0.clock]
             clock := s0.clock + 1 }) ∧
      recordResults s0.tasks = [] ∧ s0.awaited = [] := by
  obtain ⟨h1, h2, h3, h4, h5⟩ := runTiger_postFetchErr env hl hc hcf hcr hpf
  rcases hR : runTiger env with ⟨o, s0⟩
  rw [hR] at h1 h2 h3 h4 h5
  replace h1 : o = RunOutcome.okNormal := h1
  replace h2 : s0.submitAssigns = [sysErrorResult] := h2
  replace h3 : s0.judged_at = some ((afterClaim env).clock + 1) := h3
  replace h4 : recordResults s0.tasks = [] := h4
  replace h5 : s0.awaited = [] := h5
  subst h1
  refine ⟨s0, ?_, h4, h5⟩
  simp [submitTiger, hR, h2, h3]

/-! ### Claim theorems -/

/-- C1 counterexample: in the environment where every external effect
succeeds, `TigerTask.submit` returns its `SubmitResult` (outcome `ok`)
while the 11 pending-submission handles retained in `self.tasks` (one per
test case plus the final `submit_record`) have all been gathered by
nothing: `submit` performs no await on the retained handles, so it does
not return "only after every task retained in `self.tasks` has
resolved". -/
theorem c1_counterexample :
    (submitTiger envAllOk).1 =
      SubmitOutcome.ok (acceptedResult envAllOk cmdOk cmdOk) ∧
    (submitTiger envAllOk).2.tasks.length = 11 ∧
    (submitTiger envAllOk).2.awaited = [] := by
  decide

/-- C1 amended: on every fully successful attempt, all case-count + 1 = 11
handle-returning calls are retained in `self.tasks`; `TigerTask.submit`
itself returns with none of them awaited, and the await-all barrier is
provided separately by `TigerTask.clean`, which the broker entry point
(modelled from the spec) runs before the broker-visible attempt returns:
after it, every retained handle has been resolved. -/
theorem c1_amended (env : Env) (cc lc : CompletedCommand)
    (hl : (retryThree env.loginResp).value = some 0)
    (hc : (retryThree env.claimResp).value = some 0)
    (hcf : env.fetchConfigOk = true) (hcr : env.fetchRecordOk = true)
    (hcmp : env.compileCmd = some cc) (hlint : env.lintCmd = some lc)
    (he : ∀ j, j < 10 → (env.execCmd j).isSome = true) :
    (submitTiger env).2.tasks.length = 11 ∧
    (submitTiger env).2.awaited = [] ∧
    (brokerAttempt env).2.tasks.length = 11 ∧
    (brokerAttempt env).2.awaited = (brokerAttempt env).2.tasks := by
  have h := submitTiger_allOk env cc lc hl hc hcf hcr hcmp hlint he
  refine ⟨?_, ?_, ?_, ?_⟩
  · rw [h]
    simp [caseHandles]
  · rw [h]
    simp [afterClaim]
  · simp only [brokerAttempt, h]
    simp [cleanTiger, caseHandles]
  · simp only [brokerAttempt, h]
    simp [cleanTiger, afterClaim]

/-- C1 amended witness: the amended statement evaluated in the
all-success environment. -/
theorem c1_amended_witness :
    (submitTiger envAllOk).2.tasks.length = 11 ∧
    (submitTiger envAllOk).2.awaited = [] ∧
    (brokerAttempt envAllOk).2.tasks.length = 11 ∧
    (brokerAttempt envAllOk).2.awaited = (brokerAttempt envAllOk).2.tasks :=
  c1_amended envAllOk cmdOk cmdOk rfl rfl rfl rfl rfl rfl
    (fun _ _ => rfl)

/-- C2 counterexample: when the problem-config fetch raises (an
unclassified exception, neither `WorkerRejectError` nor `RetryableError`),
`run` catches it and assigns the `system_error` result, but `submit` then
raises `AttributeError` on the never-assigned `self.judged_at`, so zero
`submit_record` calls are issued — not "exactly one submit_record call
carrying that system_error result". -/
theorem c2_counterexample :
    (submitTiger envFetchFail).1 = SubmitOutcome.attributeError ∧
    recordResults (submitTiger envFetchFail).2.tasks = [] ∧
    (submitTiger envFetchFail).2.submitAssigns = [sysErrorResult] := by
  decide

/-- C2 amended: for every attempt in which `run` raises an unclassified
exception after `judged_at` has been stamped (compile, lint, or a case of
execute raising), the exception is caught, the `SubmitResult` is set to
`system_error`, exactly one `submit_record` call carrying that
`system_error` result is issued, and every case submission issued before
the exception is still retained and awaited by the broker-visible attempt
rather than abandoned. -/
theorem c2_amended (env : Env)
    (hl : (retryThree env.loginResp).value = some 0)
    (hc : (retryThree env.claimResp).value = some 0)
    (hcf : env.fetchConfigOk = true) (hcr : env.fetchRecordOk = true)
    (hpf : postFetchFailure env) :
    (brokerAttempt env).1 = SubmitOutcome.ok sysErrorResult ∧
    recordResults (brokerAttempt env).2.tasks = [sysErrorResult] ∧
    (brokerAttempt env).2.awaited = (brokerAttempt env).2.tasks := by
  obtain ⟨s0, hs, hrec, hw⟩ := submitTiger_sysError env hl hc hcf hcr hpf
  simp only [brokerAttempt, hs]
  refine ⟨by simp, ?_, ?_⟩
  · simp only [cleanTiger]
    rw [recordResults_append, hrec, recordResults_single]
    simp
  · simp [cleanTiger, hw]

/-- C2 amended witness: the amended statement evaluated in the environment
where the lint command raises after both fetches completed. -/
theorem c2_amended_witness :
    (brokerAttempt envLintFail).1 = SubmitOutcome.ok sysErrorResult ∧
    recordResults (brokerAttempt envLintFail).2.tasks = [sysErrorResult] ∧
    (brokerAttempt envLintFail).2.awaited = (brokerAttempt envLintFail).2.tasks :=
  c2_amended envLintFail rfl rfl rfl rfl (Or.inr (Or.inl rfl))

/-- C3: on every return path of `run`, `self.submit_res` is assigned
exactly once and holds a (non-null) `SubmitResult` — one assignment on the
success path (the `accepted` aggregate) and one on the
unclassified-exception path (`system_error`); no path assigns it twice or
returns normally with it unset, and the reject paths, which do not return
but raise to the broker, perform no assignment at all. -/
theorem c3_overall_once (env : Env) :
    (runTiger env).2.submitAssigns.length =
      assignsOfOutcome (runTiger env).1 := by
  rcases hL : loginPhase env initState with ⟨om, sL⟩
  have hsL : sL.submitAssigns = [] := by
    have h := loginPhase_snd env initState
    rw [hL] at h
    replace h : sL = _ := h
    rw [h]
    rfl
  cases om with
  | some m =>
    simp only [runTiger, hL]
    simp [assignsOfOutcome, hsL]
  | none =>
    rcases hC : claimPhase env sL with ⟨om2, sC⟩
    have hsC : sC.submitAssigns = [] := by
      have h := claimPhase_snd env sL
      rw [hC] at h
      replace h : sC = _ := h
      rw [h]
      exact hsL
    cases om2 with
    | some m =>
      simp only [runTiger, hL, hC]
      simp [assignsOfOutcome, hsC]
    | none =>
      simp only [runTiger, hL, hC]
      simp [assignsOfOutcome, postClaim_assigns_len, hsC]

/-- C4: a claim call whose response arrives with an application-level
failure code is never retried (tenacity sees a returned response, so
exactly one transport call is made), the attempt terminates by raising
`Reject` to the broker carrying the claim-specific application-rejection
diagnostic, and zero submission calls — neither `submit_case` nor
`submit_record` — are made (no pending-submission handle is ever
created). -/
theorem c4_claim_app_reject (env : Env) (ec : Nat)
    (hl : (retryThree env.loginResp).value = some 0)
    (hc1 : env.claimResp 1 = some ec) (hne : ec ≠ 0) :
    (submitTiger env).1 = SubmitOutcome.rejected (RejectMsg.claimApp ec) ∧
    (submitTiger env).2.claimCalls = 1 ∧
    (submitTiger env).2.tasks = [] ∧
    (submitTiger env).2.awaited = [] := by
  have hrt : retryThree env.claimResp = ⟨some ec, 1, []⟩ :=
    retryThree_first env.claimResp ec hc1
  have hL := loginPhase_ok env initState hl
  have hcp := claimPhase_appFail env
    { initState with
        clock := initState.clock + (retryThree env.loginResp).calls +
          (retryThree env.loginResp).waits.sum
        loginCalls := (retryThree env.loginResp).calls
        loginWaits := (retryThree env.loginResp).waits } ec
    (by rw [hrt]) hne
  have hrun : runTiger env =
      (RunOutcome.rejected (RejectMsg.claimApp ec),
       { initState with
           clock := initState.clock + (retryThree env.loginResp).calls +
             (retryThree env.loginResp).waits.sum +
             (retryThree env.claimResp).calls +
             (retryThree env.claimResp).waits.sum
           loginCalls := (retryThree env.loginResp).calls
           loginWaits := (retryThree env.loginResp).waits
           claimCalls := (retryThree env.claimResp).calls
           claimWaits := (retryThree env.claimResp).waits }) := by
    simp only [runTiger, hL, hcp]
  simp only [submitTiger, hrun]
  rw [hrt]
  simp [initState]

/-- C4 witness: the statement evaluated in the environment whose claim
response carries application error code 7. -/
theorem c4_claim_app_reject_witness :
    (submitTiger envClaimApp).1 =
      SubmitOutcome.rejected (RejectMsg.claimApp 7) ∧
    (submitTiger envClaimApp).2.claimCalls = 1 ∧
    (submitTiger envClaimApp).2.tasks = [] ∧
    (submitTiger envClaimApp).2.awaited = [] :=
  c4_claim_app_reject envClaimApp 7 rfl rfl (by decide)

/-- C5 counterexample: with every login transport attempt failing, the
retried call makes exactly 3 attempts, but only two backoff waits occur
between them — of 2 and 4 seconds (tenacity `wait_exponential(2)`:
`2 * 2 ^ (n - 1)`), not three waits of "approximately 2, 4, 8 seconds" —
before the exhaustion is converted into the transport-rejection
diagnostic. -/
theorem c5_counterexample :
    (runTiger envLoginDown).1 =
      RunOutcome.rejected RejectMsg.loginTransport ∧
    (runTiger envLoginDown).2.loginCalls = 3 ∧
    (runTiger envLoginDown).2.loginWaits = [2, 4] ∧
    (runTiger envLoginDown).2.loginWaits.length = 2 := by
  decide

/-- C5 amended: for authenticate and claim only, a transport failure is
retried up to 3 attempts with exponential backoff from base 2 — two waits,
of `tenacityWait 2 1 = 2` and `tenacityWait 2 2 = 4` seconds, between the
three attempts; exhaustion converts the transport failure into a terminal
rejection (a `WorkerRejectError` re-raised as a broker `Reject`) whose
diagnostic — `loginTransport` ("failed to request to login") for
authenticate, `claimTransport` ("failed to request to claim record") for
claim — is distinct from every application-level rejection diagnostic
(`loginApp ec` / `claimApp ec`). -/
theorem c5_amended (env : Env) :
    ((∀ n, env.loginResp n = none) →
      (runTiger env).1 = RunOutcome.rejected RejectMsg.loginTransport ∧
      (runTiger env).2.loginCalls = 3 ∧
      (runTiger env).2.loginWaits = [tenacityWait 2 1, tenacityWait 2 2]) ∧
    ((retryThree env.loginResp).value = some 0 →
      (∀ n, env.claimResp n = none) →
      (runTiger env).1 = RunOutcome.rejected RejectMsg.claimTransport ∧
      (runTiger env).2.claimCalls = 3 ∧
      (runTiger env).2.claimWaits = [tenacityWait 2 1, tenacityWait 2 2]) ∧
    (∀ ec, RejectMsg.loginTransport ≠ RejectMsg.loginApp ec) ∧
    (∀ ec, RejectMsg.claimTransport ≠ RejectMsg.claimApp ec) := by
  refine ⟨?_, ?_, by simp, by simp⟩
  · intro h
    have hL := loginPhase_exhausted env initState h
    simp only [runTiger, hL]
    simp
  · intro hl h
    have hL := loginPhase_ok env initState hl
    simp only [runTiger, hL]
    rw [claimPhase_exhausted env _ h]
    simp

/-- C5 amended witness: the two exhaustion halves evaluated at concrete
environments — every login transport attempt failing, and login
succeeding with every claim transport attempt failing. -/
theorem c5_amended_witness :
    (runTiger envLoginDown).1 =
      RunOutcome.rejected RejectMsg.loginTransport ∧
    (runTiger envLoginDown).2.loginCalls = 3 ∧
    (runTiger envLoginDown).2.loginWaits =
      [tenacityWait 2 1, tenacityWait 2 2] ∧
    (runTiger envClaimDown).1 =
      RunOutcome.rejected RejectMsg.claimTransport ∧
    (runTiger envClaimDown).2.claimCalls = 3 ∧
    (runTiger envClaimDown).2.claimWaits =
      [tenacityWait 2 1, tenacityWait 2 2] := by
  obtain ⟨h1, h2, h3⟩ := (c5_amended envLoginDown).1 (fun _ => rfl)
  obtain ⟨h4, h5, h6⟩ := (c5_amended envClaimDown).2.1 rfl (fun _ => rfl)
  exact ⟨h1, h2, h3, h4, h5, h6⟩

/-- C6: on every successful attempt, the `judged_at` value passed to
`submit_record` equals the instant at which both fetches completed (the
judging start, recorded in `fetchDone`), every later step leaves
`judged_at` unchanged, and it is strictly earlier than the instant the
final submission is created. -/
theorem c6_judged_at (env : Env) (cc lc : CompletedCommand)
    (hl : (retryThree env.loginResp).value = some 0)
    (hc : (retryThree env.claimResp).value = some 0)
    (hcf : env.fetchConfigOk = true) (hcr : env.fetchRecordOk = true)
    (hcmp : env.compileCmd = some cc) (hlint : env.lintCmd = some lc)
    (he : ∀ j, j < 10 → (env.execCmd j).isSome = true) :
    ∃ j c,
      (submitTiger env).2.fetchDone = some j ∧
      (submitTiger env).2.judged_at = some j ∧
      recordsOf (submitTiger env).2.tasks =
        [(acceptedResult env cc lc, j, c)] ∧
      j < c := by
  have h := submitTiger_allOk env cc lc hl hc hcf hcr hcmp hlint he
  refine ⟨(afterClaim env).clock + 1, (afterClaim env).clock + 13,
    ?_, ?_, ?_, ?_⟩
  · rw [h]
  · rw [h]
  · rw [h]
    show recordsOf (caseHandles env ++ [_]) = _
    rw [recordsOf_append, recordsOf_single]
    simp [caseHandles, recordsOf_caseHandles_map]
  · omega

/-- C6 witness: the statement evaluated in the all-success
environment. -/
theorem c6_judged_at_witness :
    ∃ j c,
      (submitTiger envAllOk).2.fetchDone = some j ∧
      (submitTiger envAllOk).2.judged_at = some j ∧
      recordsOf (submitTiger envAllOk).2.tasks =
        [(acceptedResult envAllOk cmdOk cmdOk, j, c)] ∧
      j < c :=
  c6_judged_at envAllOk cmdOk cmdOk rfl rfl rfl rfl rfl rfl
    (fun _ _ => rfl)

/-- C7 counterexample: an attempt that reaches the execute phase but whose
case-3 command raises a sandbox-infrastructure failure creates only 3 case
submissions (numbers 0, 1, 2), not "exactly 10 case submissions, one per
case number 0 through 9". -/
theorem c7_counterexample :
    (submitTiger envExecFail3).2.executeEntered = true ∧
    caseNumbers (submitTiger envExecFail3).2.tasks = [0, 1, 2] ∧
    (caseNumbers (submitTiger envExecFail3).2.tasks).length = 3 := by
  decide

/-- C7 amended: on every attempt whose execute phase runs to completion
(no case command raising), exactly 10 case submissions are created, one
per case number 0 through 9 in creation order, each case number submitted
exactly once, with the number attached from the loop index at the moment
the submission is created. -/
theorem c7_amended (env : Env) (cc lc : CompletedCommand)
    (hl : (retryThree env.loginResp).value = some 0)
    (hc : (retryThree env.claimResp).value = some 0)
    (hcf : env.fetchConfigOk = true) (hcr : env.fetchRecordOk = true)
    (hcmp : env.compileCmd = some cc) (hlint : env.lintCmd = some lc)
    (he : ∀ j, j < 10 → (env.execCmd j).isSome = true) :
    (submitTiger env).2.executeEntered = true ∧
    caseNumbers (submitTiger env).2.tasks =
      [0, 1, 2, 3, 4, 5, 6, 7, 8, 9] := by
  have h := submitTiger_allOk env cc lc hl hc hcf hcr hcmp hlint he
  constructor
  · rw [h]
  · rw [h]
    show caseNumbers (caseHandles env ++ [_]) = _
    rw [caseNumbers_append]
    simp [caseHandles, caseNumbers_caseHandles_map, caseNumbers]
    rfl

/-- C7 amended witness: the amended statement evaluated in the all-success
environment. -/
theorem c7_amended_witness :
    (submitTiger envAllOk).2.executeEntered = true ∧
    caseNumbers (submitTiger envAllOk).2.tasks =
      [0, 1, 2, 3, 4, 5, 6, 7, 8, 9] :=
  c7_amended envAllOk cmdOk cmdOk rfl rfl rfl rfl rfl rfl
    (fun _ _ => rfl)

/-- C8: a failing compile or lint phase never short-circuits the pipeline:
whatever completed command the compile phase records — any exit code,
output, or duration, `cc` being universally quantified — the lint and
execute phases still run, and the aggregate `SubmitResult` records each
phase result as data (the compile result, the lint result, and all 10 case
results) rather than gating on it. -/
theorem c8_no_gate (env : Env) (cc lc : CompletedCommand)
    (hl : (retryThree env.loginResp).value = some 0)
    (hc : (retryThree env.claimResp).value = some 0)
    (hcf : env.fetchConfigOk = true) (hcr : env.fetchRecordOk = true)
    (hcmp : env.compileCmd = some cc) (hlint : env.lintCmd = some lc)
    (he : ∀ j, j < 10 → (env.execCmd j).isSome = true) :
    (runTiger env).1 = RunOutcome.okNormal ∧
    (runTiger env).2.submitAssigns =
      [{ submit_status := SubmitStatus.accepted
         compile_result := some cc
         lint_result := some lc
         execute_results := execResultsOf env }] ∧
    (execResultsOf env).length = 10 := by
  have h1 := runTiger_ok env hl hc
  rw [h1, postClaim_allOk env _ cc lc hcf hcr hcmp hlint he]
  refine ⟨rfl, ?_, ?_⟩
  · simp [afterClaim, acceptedResult]
  · simp [execResultsOf]

/-- C8 witness: the statement evaluated in an environment whose compile
command records a non-zero exit code (a failing compile), checking that
lint and execute still ran and every result was recorded. -/
theorem c8_no_gate_witness :
    (runTiger envCompileBad).1 = RunOutcome.okNormal ∧
    (runTiger envCompileBad).2.submitAssigns =
      [{ submit_status := SubmitStatus.accepted
         compile_result := some ⟨1, "compile error", 5⟩
         lint_result := some cmdOk
         execute_results := execResultsOf envCompileBad }] ∧
    (execResultsOf envCompileBad).length = 10 :=
  c8_no_gate envCompileBad ⟨1, "compile error", 5⟩ cmdOk rfl rfl rfl rfl
    rfl rfl (fun _ _ => rfl)

/-- C9 counterexample: on Windows with `workers = 2` the process does not
force the setting to 1 — it refuses to start, exiting with code -1 —
whereas on a multi-process platform the same setting starts the broker
runtime with the 2 configured workers unchanged. -/
theorem c9_counterexample :
    mainEntry PlatformName.windows ⟨2, false⟩ = MainAction.exitWith (-1) ∧
    mainEntry PlatformName.linux ⟨2, false⟩ = MainAction.runApp 2 := by
  decide

/-- C9 amended: on a platform lacking multi-process support (Windows), a
workers setting other than 1 makes the process exit with a non-zero code
(it is rejected, not coerced to 1); the process exits with a non-zero code
exactly on that platform/configuration incompatibility, and otherwise
process start is delegated to the broker runtime — or, with debug enabled
and workers equal to 1, to the local auto-reload supervisor. -/
theorem c9_amended (plat : PlatformName) (s : MainSettings) :
    ((∃ c, mainEntry plat s = MainAction.exitWith c ∧ c ≠ 0) ↔
      (plat = PlatformName.windows ∧ s.workers ≠ 1)) ∧
    (¬(plat = PlatformName.windows ∧ s.workers ≠ 1) →
      mainEntry plat s =
        (if s.debug ∧ s.workers = 1 then MainAction.watchSupervisor s.workers
         else MainAction.runApp s.workers)) := by
  unfold mainEntry
  by_cases h : plat = PlatformName.windows ∧ s.workers ≠ 1
  · rw [if_pos h]
    refine ⟨⟨fun _ => h, fun _ => ⟨-1, rfl, by decide⟩⟩, ?_⟩
    intro hn
    exact absurd h hn
  · rw [if_neg h]
    refine ⟨⟨?_, fun hw => absurd hw h⟩, ?_⟩
    · rintro ⟨c, hcq, hc0⟩
      by_cases h2 : ¬s.debug ∨ s.workers ≠ 1
      · rw [if_pos h2] at hcq
        simp at hcq
      · rw [if_neg h2] at hcq
        simp at hcq
    · intro hn
      by_cases h2 : ¬s.debug ∨ s.workers ≠ 1
      · rw [if_pos h2]
        have hne : ¬(s.debug ∧ s.workers = 1) := by tauto
        rw [if_neg hne]
      · rw [if_neg h2]
        have hp : s.debug ∧ s.workers = 1 := by tauto
        rw [if_pos hp]

/-- C9 amended witness: the amended statement evaluated at two concrete
configurations — Windows with 2 workers (non-zero exit) and Linux with 2
workers, no debug (delegation to the broker runtime). -/
theorem c9_amended_witness :
    (∃ c, mainEntry PlatformName.windows ⟨2, false⟩ =
      MainAction.exitWith c ∧ c ≠ 0) ∧
    mainEntry PlatformName.linux ⟨2, false⟩ = MainAction.runApp 2 := by
  refine ⟨(c9_amended PlatformName.windows ⟨2, false⟩).1.mpr (by decide), ?_⟩
  have h := (c9_amended PlatformName.linux ⟨2, false⟩).2 (by decide)
  simpa using h

/-- C10: if an unclassified exception occurs before both fetches complete
(either storage sync raising), `judged_at` is never assigned, so even
though `run` catches the exception and assigns the `system_error` result,
`submit` raises `AttributeError` reading `self.judged_at` and no
`submit_record` handle is ever created — the `system_error` result is not
delivered; whereas for an unclassified exception raised after the fetch
phase completed, `submit` succeeds and delivers exactly one
`submit_record` carrying `system_error`. -/
theorem c10_judged_at_unset (env : Env)
    (hl : (retryThree env.loginResp).value = some 0)
    (hc : (retryThree env.claimResp).value = some 0) :
    ((env.fetchConfigOk = false ∨ env.fetchRecordOk = false) →
      (submitTiger env).1 = SubmitOutcome.attributeError ∧
      recordResults (submitTiger env).2.tasks = [] ∧
      (submitTiger env).2.submitAssigns = [sysErrorResult] ∧
      (submitTiger env).2.judged_at = none) ∧
    (env.fetchConfigOk = true → env.fetchRecordOk = true →
      postFetchFailure env →
      (submitTiger env).1 = SubmitOutcome.ok sysErrorResult ∧
      recordResults (submitTiger env).2.tasks = [sysErrorResult]) := by
  constructor
  · intro hff
    have h1 := runTiger_ok env hl hc
    rw [postClaim_fetchFail env (afterClaim env) hff] at h1
    simp only [submitTiger, h1]
    simp [afterClaim, recordResults]
  · intro hcf hcr hpf
    obtain ⟨s0, hs, hrec, hw⟩ := submitTiger_sysError env hl hc hcf hcr hpf
    rw [hs]
    refine ⟨rfl, ?_⟩
    rw [recordResults_append, hrec, recordResults_single]
    simp

/-- C10 witness: the two halves evaluated at concrete environments — a
failing problem-config fetch (AttributeError, nothing delivered) and a
failing lint command after the fetches (system_error delivered). -/
theorem c10_judged_at_unset_witness :
    (submitTiger envFetchFail).1 = SubmitOutcome.attributeError ∧
    (submitTiger envLintFail).1 = SubmitOutcome.ok sysErrorResult :=
  ⟨((c10_judged_at_unset envFetchFail rfl rfl).1 (Or.inl rfl)).1,
   ((c10_judged_at_unset envLintFail rfl rfl).2 rfl rfl
     (Or.inr (Or.inl rfl))).1⟩
